/-
  Verification of the MAX22200 octal solenoid-driver (hf-max22200-driver).

  Shallow embedding of the driver core:
  * the pure register codec of `inc/max22200_types.hpp`
    (`getChopFreqKhz`, `currentMaToRaw`, `hitTimeMsToRaw`,
     `ChannelConfig::toRegister` / `fromRegister`,
     `StatusConfig::toRegister` / `fromRegister`, `DriverStatistics`),
  * the command-byte builder of `inc/max22200_registers.hpp`
    (`CommandReg::build`), and
  * the two-phase SPI protocol and controller state machine of
    `src/max22200.ipp` (`writeCommandRegister`, `writeData32`,
    `readData32`, `writeData8`, `writeReg32/readReg32/writeReg8`,
    `Initialize`, `Deinitialize`, `SetChannelsOn`, `ConfigureChannel`,
    `updateStatistics`).

  C `float` values are embedded as exact rationals (`ℚ`);
  `uint32_t` counters use `Nat` with explicit `% 2^32`;
  `static_cast<uint32_t>` of a nonnegative value is `Nat.floor`.
  The SPI transport is an oracle: a list of transfer outcomes consumed
  in order, together with the GPIO pin levels and a transcript of the
  bytes clocked out on the bus.
-/
import Mathlib

namespace Max22200

/-! ## Enumerations (max22200_types.hpp) -/

inductive DriveMode where
  | CDR : DriveMode
  | VDR : DriveMode
deriving DecidableEq, Repr

inductive SideMode where
  | LOW_SIDE : SideMode
  | HIGH_SIDE : SideMode
deriving DecidableEq, Repr

inductive ChannelMode where
  | INDEPENDENT : ChannelMode
  | PARALLEL : ChannelMode
  | HBRIDGE : ChannelMode
deriving DecidableEq, Repr

inductive ChopFreq where
  | FMAIN_DIV4 : ChopFreq
  | FMAIN_DIV3 : ChopFreq
  | FMAIN_DIV2 : ChopFreq
  | FMAIN : ChopFreq
deriving DecidableEq, Repr

inductive DriverStatus where
  | OK : DriverStatus
  | INITIALIZATION_ERROR : DriverStatus
  | COMMUNICATION_ERROR : DriverStatus
  | INVALID_PARAMETER : DriverStatus
  | HARDWARE_FAULT : DriverStatus
  | TIMEOUT : DriverStatus
deriving DecidableEq, Repr

/-- FREQ_CFG register bits for a `ChopFreq` selector (the enum values 0-3). -/
def chopFreqBits : ChopFreq → Nat
  | .FMAIN_DIV4 => 0
  | .FMAIN_DIV3 => 1
  | .FMAIN_DIV2 => 2
  | .FMAIN => 3

/-- Inverse of `chopFreqBits`, as in `fromRegister`'s
`static_cast<ChopFreq>((val >> FREQ_CFG_SHIFT) & 0x03)`. -/
def chopFreqOfBits : Nat → ChopFreq
  | 0 => .FMAIN_DIV4
  | 1 => .FMAIN_DIV3
  | 2 => .FMAIN_DIV2
  | _ => .FMAIN

/-- `getChopFreqKhz` (max22200_types.hpp): chopping frequency in kHz from the
master-clock base flag (FREQM) and the FREQ_CFG divider. -/
def getChopFreqKhz (master_clock_80khz : Bool) (cf : ChopFreq) : Nat :=
  match cf with
  | .FMAIN_DIV4 => if master_clock_80khz then 20 else 25
  | .FMAIN_DIV3 => if master_clock_80khz then 26 else 33
  | .FMAIN_DIV2 => if master_clock_80khz then 40 else 50
  | .FMAIN => if master_clock_80khz then 80 else 100

/-- `currentMaToRaw` (max22200_types.hpp): mA setpoint to 7-bit CDR raw value.
The intermediate `ma * 127u + full_scale_current_ma / 2u` is computed in
wrapping `uint32_t` arithmetic, hence the `% 2 ^ 32`; the division and
`ifs / 2` are `Nat` floor division, and the trailing
`raw > 127 ? 127 : raw` clamp is `min _ 127`. -/
def currentMaToRaw (full_scale_current_ma ma : Nat) : Nat :=
  if full_scale_current_ma = 0 then 0
  else if full_scale_current_ma ≤ ma then 127
  else
    min ((ma * 127 + full_scale_current_ma / 2) % 2 ^ 32 / full_scale_current_ma)
      127

/-- `hitTimeMsToRaw` (max22200_types.hpp): HIT time in ms (a C `float`,
embedded as `ℚ`) to the 8-bit HIT_T value. The `uint32_t` cast of the
nonnegative expression `(ms / 1000) * fchop_hz / 40 + 0.5` is `Nat.floor`. -/
def hitTimeMsToRaw (ms : ℚ) (master_clock_80khz : Bool) (cf : ChopFreq) : Nat :=
  let fchop_khz := getChopFreqKhz master_clock_80khz cf
  if ms < 0 ∨ 1000000 ≤ ms then 255
  else if ms = 0 then 0
  else
    let raw := ⌊ms / 1000 * ((fchop_khz : ℚ) * 1000) / 40 + 1/2⌋₊
    if 254 < raw then 255
    else if raw = 0 then 1
    else raw

/-! ## Command register (max22200_registers.hpp) -/

namespace CommandReg

/-- `CommandReg::build`: 8-bit command byte =
RB/W (bit 7) | A_BNK (bits 4:1, bank masked to 4 bits) | 8-bit mode (bit 0). -/
def build (bank : Nat) (write : Bool) (mode8 : Bool) : Nat :=
  (if write then 0x80 else 0x00) |||
  ((bank &&& 0x0F) <<< 1) |||
  (if mode8 then 0x01 else 0x00)

end CommandReg

/-- `getChannelCfgBank` (max22200_registers.hpp): CFG_CH0 = 0x01 plus channel. -/
def getChannelCfgBank (channel : Nat) : Nat := 0x01 + channel

/-! ## ChannelConfig (max22200_types.hpp)

`hit_current_value`, `hold_current_value` and `hit_time_ms` are C `float`
fields, embedded as `ℚ`.  The bit packing of `toRegister` ORs fields at
disjoint offsets (HFS_BIT = 2^31, HOLD_SHIFT = 24, TRGNSPI_BIT = 2^23,
HIT_SHIFT = 16, HITT_SHIFT = 8, VDRNCDR_BIT = 2^7, HSNLS_BIT = 2^6,
FREQ_CFG_SHIFT = 4, SRC/OL_EN/DPM_EN/HHF_EN = bits 3..0), written here as
a sum of the shifted fields (equal to the OR because the fields are
disjoint: the 7-bit setpoints are masked with `& 0x7F` i.e. `% 128`, and
`hitTimeMsToRaw` returns at most 255). -/

structure ChannelConfig where
  hit_current_value : ℚ
  hold_current_value : ℚ
  hit_time_ms : ℚ
  full_scale_current_ma : Nat
  master_clock_80khz : Bool
  half_full_scale : Bool
  trigger_from_pin : Bool
  drive_mode : DriveMode
  side_mode : SideMode
  chop_freq : ChopFreq
  slew_rate_control_enabled : Bool
  open_load_detection_enabled : Bool
  plunger_movement_detection_enabled : Bool
  hit_current_check_enabled : Bool
deriving DecidableEq

/-- Default-constructed `ChannelConfig` (safe zero values, IFS 1000 mA). -/
def ChannelConfig.default : ChannelConfig where
  hit_current_value := 0
  hold_current_value := 0
  hit_time_ms := 0
  full_scale_current_ma := 1000
  master_clock_80khz := false
  half_full_scale := false
  trigger_from_pin := false
  drive_mode := .CDR
  side_mode := .LOW_SIDE
  chop_freq := .FMAIN_DIV4
  slew_rate_control_enabled := false
  open_load_detection_enabled := false
  plunger_movement_detection_enabled := false
  hit_current_check_enabled := false

/-- The HIT/HOLD setpoint conversion inside `ChannelConfig::toRegister`:
CDR converts mA through `currentMaToRaw` after rounding the float value to
an integer mA (`static_cast<uint32_t>(value + 0.5f)` = `Nat.floor`);
VDR converts a duty percentage with round-half-up and a 127 clamp. -/
def encodeSetpoint (dm : DriveMode) (full_scale_current_ma : Nat) (v : ℚ) : Nat :=
  match dm with
  | .CDR =>
    if full_scale_current_ma = 0 then 0
    else if (full_scale_current_ma : ℚ) ≤ v then 127
    else currentMaToRaw full_scale_current_ma ⌊v + 1/2⌋₊
  | .VDR =>
    if v ≤ 0 then 0
    else if 100 ≤ v then 127
    else min ⌊v / 100 * 127 + 1/2⌋₊ 127

/-- `ChannelConfig::toRegister`: packs the encoded setpoints, HIT time and
flag bits into the 32-bit CFG_CHx layout. -/
def ChannelConfig.toRegister (c : ChannelConfig) : Nat :=
  let hit_raw := encodeSetpoint c.drive_mode c.full_scale_current_ma c.hit_current_value
  let hold_raw := encodeSetpoint c.drive_mode c.full_scale_current_ma c.hold_current_value
  let hit_time_raw := hitTimeMsToRaw c.hit_time_ms c.master_clock_80khz c.chop_freq
  (if c.half_full_scale then 2 ^ 31 else 0) +
  (hold_raw % 128) * 2 ^ 24 +
  (if c.trigger_from_pin then 2 ^ 23 else 0) +
  (hit_raw % 128) * 2 ^ 16 +
  hit_time_raw * 2 ^ 8 +
  (if c.drive_mode = .VDR then 2 ^ 7 else 0) +
  (if c.side_mode = .HIGH_SIDE then 2 ^ 6 else 0) +
  chopFreqBits c.chop_freq * 2 ^ 4 +
  (if c.slew_rate_control_enabled then 2 ^ 3 else 0) +
  (if c.open_load_detection_enabled then 2 ^ 2 else 0) +
  (if c.plunger_movement_detection_enabled then 2 ^ 1 else 0) +
  (if c.hit_current_check_enabled then 1 else 0)

/-- Raw-to-user-units conversion inside `ChannelConfig::fromRegister`:
CDR yields `raw / 127 × IFS` mA (0 if IFS is 0), VDR yields
`raw / 127 × 100` percent. -/
def decodeSetpoint (dm : DriveMode) (full_scale_current_ma : Nat) (raw : Nat) : ℚ :=
  match dm with
  | .CDR =>
    if 0 < full_scale_current_ma then (raw : ℚ) / 127 * (full_scale_current_ma : ℚ)
    else 0
  | .VDR => (raw : ℚ) / 127 * 100

/-- HIT-time raw-to-ms conversion inside `ChannelConfig::fromRegister`:
0 → 0 ms, 255 → −1 (continuous sentinel), else `raw × 40 / fchop_hz × 1000`. -/
def decodeHitTime (raw : Nat) (master_clock_80khz : Bool) (cf : ChopFreq) : ℚ :=
  if raw = 0 then 0
  else if raw = 255 then -1
  else (raw : ℚ) * 40 / ((getChopFreqKhz master_clock_80khz cf : ℚ) * 1000) * 1000

/-- `ChannelConfig::fromRegister`: parses the 32-bit CFG_CHx value
(bit extraction `(val >> k) & mask` is `val / 2^k % (mask+1)`), stores the
conversion context, and converts the raw fields back to user units. -/
def ChannelConfig.fromRegister (val full_scale_current_ma : Nat)
    (master_clock_80khz : Bool) : ChannelConfig :=
  let hold_raw := val / 2 ^ 24 % 128
  let hit_raw := val / 2 ^ 16 % 128
  let hit_time_raw := val / 2 ^ 8 % 256
  let dm : DriveMode := if val / 2 ^ 7 % 2 = 1 then .VDR else .CDR
  let cf := chopFreqOfBits (val / 2 ^ 4 % 4)
  { half_full_scale := val / 2 ^ 31 % 2 = 1
    trigger_from_pin := val / 2 ^ 23 % 2 = 1
    drive_mode := dm
    side_mode := if val / 2 ^ 6 % 2 = 1 then .HIGH_SIDE else .LOW_SIDE
    chop_freq := cf
    slew_rate_control_enabled := val / 2 ^ 3 % 2 = 1
    open_load_detection_enabled := val / 2 ^ 2 % 2 = 1
    plunger_movement_detection_enabled := val / 2 ^ 1 % 2 = 1
    hit_current_check_enabled := val % 2 = 1
    full_scale_current_ma := full_scale_current_ma
    master_clock_80khz := master_clock_80khz
    hit_current_value := decodeSetpoint dm full_scale_current_ma hit_raw
    hold_current_value := decodeSetpoint dm full_scale_current_ma hold_raw
    hit_time_ms := decodeHitTime hit_time_raw master_clock_80khz cf }

/-! ## StatusConfig (max22200_types.hpp) -/

/-- `ChannelMode` 2-bit field value (the enum values 0-2). -/
def channelModeBits : ChannelMode → Nat
  | .INDEPENDENT => 0
  | .PARALLEL => 1
  | .HBRIDGE => 2

structure StatusConfig where
  channels_on_mask : Nat
  overtemperature_masked : Bool
  overcurrent_masked : Bool
  open_load_fault_masked : Bool
  hit_not_reached_masked : Bool
  plunger_movement_fault_masked : Bool
  communication_error_masked : Bool
  undervoltage_masked : Bool
  master_clock_80khz : Bool
  channel_pair_mode_76 : ChannelMode
  channel_pair_mode_54 : ChannelMode
  channel_pair_mode_32 : ChannelMode
  channel_pair_mode_10 : ChannelMode
  active : Bool
  overtemperature : Bool
  overcurrent : Bool
  open_load_fault : Bool
  hit_not_reached : Bool
  plunger_movement_fault : Bool
  communication_error : Bool
  undervoltage : Bool
deriving DecidableEq

/-- Default-constructed `StatusConfig` (everything off; only the
communication-error mask defaults to true, matching the device reset). -/
def StatusConfig.default : StatusConfig where
  channels_on_mask := 0
  overtemperature_masked := false
  overcurrent_masked := false
  open_load_fault_masked := false
  hit_not_reached_masked := false
  plunger_movement_fault_masked := false
  communication_error_masked := true
  undervoltage_masked := false
  master_clock_80khz := false
  channel_pair_mode_76 := .INDEPENDENT
  channel_pair_mode_54 := .INDEPENDENT
  channel_pair_mode_32 := .INDEPENDENT
  channel_pair_mode_10 := .INDEPENDENT
  active := false
  overtemperature := false
  overcurrent := false
  open_load_fault := false
  hit_not_reached := false
  plunger_movement_fault := false
  communication_error := false
  undervoltage := false

/-- `StatusConfig::toRegister`: ONCH mask in bits 31:24, fault masks and
FREQM in bits 23:16, channel-pair modes in bits 15:8, ACTIVE in bit 0
(the read-only fault flags are not written). -/
def StatusConfig.toRegister (s : StatusConfig) : Nat :=
  (s.channels_on_mask % 256) * 2 ^ 24 +
  (if s.overtemperature_masked then 2 ^ 23 else 0) +
  (if s.overcurrent_masked then 2 ^ 22 else 0) +
  (if s.open_load_fault_masked then 2 ^ 21 else 0) +
  (if s.hit_not_reached_masked then 2 ^ 20 else 0) +
  (if s.plunger_movement_fault_masked then 2 ^ 19 else 0) +
  (if s.communication_error_masked then 2 ^ 18 else 0) +
  (if s.undervoltage_masked then 2 ^ 17 else 0) +
  (if s.master_clock_80khz then 2 ^ 16 else 0) +
  channelModeBits s.channel_pair_mode_76 * 2 ^ 14 +
  channelModeBits s.channel_pair_mode_54 * 2 ^ 12 +
  channelModeBits s.channel_pair_mode_32 * 2 ^ 10 +
  channelModeBits s.channel_pair_mode_10 * 2 ^ 8 +
  (if s.active then 1 else 0)

/-- Decoder for the 2-bit channel-pair mode fields
(`static_cast<ChannelMode>`; the reserved value 3 has no enumerator and is
embedded as HBRIDGE's successor pattern, kept total by mapping 3 to
HBRIDGE — unreachable from `toRegister`, which never emits 3). -/
def channelModeOfBits : Nat → ChannelMode
  | 0 => .INDEPENDENT
  | 1 => .PARALLEL
  | _ => .HBRIDGE

/-- `StatusConfig::fromRegister`: parses the 32-bit STATUS value including
the read-only fault-flag byte. -/
def StatusConfig.fromRegister (val : Nat) : StatusConfig where
  channels_on_mask := val / 2 ^ 24 % 256
  overtemperature_masked := val / 2 ^ 23 % 2 = 1
  overcurrent_masked := val / 2 ^ 22 % 2 = 1
  open_load_fault_masked := val / 2 ^ 21 % 2 = 1
  hit_not_reached_masked := val / 2 ^ 20 % 2 = 1
  plunger_movement_fault_masked := val / 2 ^ 19 % 2 = 1
  communication_error_masked := val / 2 ^ 18 % 2 = 1
  undervoltage_masked := val / 2 ^ 17 % 2 = 1
  master_clock_80khz := val / 2 ^ 16 % 2 = 1
  channel_pair_mode_76 := channelModeOfBits (val / 2 ^ 14 % 4)
  channel_pair_mode_54 := channelModeOfBits (val / 2 ^ 12 % 4)
  channel_pair_mode_32 := channelModeOfBits (val / 2 ^ 10 % 4)
  channel_pair_mode_10 := channelModeOfBits (val / 2 ^ 8 % 4)
  overtemperature := val / 2 ^ 7 % 2 = 1
  overcurrent := val / 2 ^ 6 % 2 = 1
  open_load_fault := val / 2 ^ 5 % 2 = 1
  hit_not_reached := val / 2 ^ 4 % 2 = 1
  plunger_movement_fault := val / 2 ^ 3 % 2 = 1
  communication_error := val / 2 ^ 2 % 2 = 1
  undervoltage := val / 2 ^ 1 % 2 = 1
  active := val % 2 = 1

/-! ## BoardConfig and DriverStatistics (max22200_types.hpp) -/

structure BoardConfig where
  full_scale_current_ma : Nat
  max_current_ma : Nat
  max_duty_percent : Nat
deriving DecidableEq

/-- Default-constructed `BoardConfig` (IFS 1000 mA, no extra limits). -/
def BoardConfig.default : BoardConfig where
  full_scale_current_ma := 1000
  max_current_ma := 0
  max_duty_percent := 0

structure DriverStatistics where
  total_transfers : Nat
  failed_transfers : Nat
  fault_events : Nat
  state_changes : Nat
  uptime_ms : Nat
deriving DecidableEq

/-- Zero-initialised statistics. -/
def DriverStatistics.init : DriverStatistics where
  total_transfers := 0
  failed_transfers := 0
  fault_events := 0
  state_changes := 0
  uptime_ms := 0

/-- `MAX22200::updateStatistics`: `total_transfers++` on every recorded
outcome, `failed_transfers++` on failure, both with `uint32_t` wraparound. -/
def DriverStatistics.update (success : Bool) (s : DriverStatistics) :
    DriverStatistics :=
  { s with
    total_transfers := (s.total_transfers + 1) % 2 ^ 32
    failed_transfers :=
      if success then s.failed_transfers
      else (s.failed_transfers + 1) % 2 ^ 32 }

/-- `DriverStatistics::getSuccessRate`: 100 when no transfers; otherwise
`(total - failed) / total * 100` where the subtraction is 32-bit unsigned
(wrapping) arithmetic and the division is over the reals (`float`,
embedded as `ℚ`). -/
def DriverStatistics.getSuccessRate (s : DriverStatistics) : ℚ :=
  if s.total_transfers = 0 then 100
  else
    (((s.total_transfers % 2 ^ 32 + 2 ^ 32 - s.failed_transfers % 2 ^ 32) % 2 ^ 32 : Nat) : ℚ)
      / (s.total_transfers : ℚ) * 100

/-! ## Transport oracle and driver state (max22200.ipp)

`Transfer` outcomes are supplied by an oracle list consumed in order;
each call appends the transmitted bytes to a transcript (`log`).  GPIO
levels for the ENABLE and CMD control pins are plain booleans.  The
`initOk`/`configOk` flags are the outcomes of the transport's `Initialize`
and `Configure` calls. -/

inductive XferRes where
  | fail : XferRes
  | ok : List Nat → XferRes
deriving DecidableEq

structure World where
  initOk : Bool
  configOk : Bool
  events : List XferRes
  enable : Bool
  cmdPin : Bool
  log : List (List Nat)
deriving DecidableEq

/-- One full-duplex `Transfer` call: consumes the next oracle event and
records the transmitted bytes (an exhausted oracle behaves as a failing
transport). -/
def transfer (w : World) (tx : List Nat) : Option (List Nat) × World :=
  match w.events with
  | [] => (none, { w with log := w.log ++ [tx] })
  | .fail :: rest => (none, { w with events := rest, log := w.log ++ [tx] })
  | .ok rx :: rest => (some rx, { w with events := rest, log := w.log ++ [tx] })

structure Driver where
  initialized : Bool
  last_fault_byte : Nat
  statistics : DriverStatistics
  cached_status : StatusConfig
  board_config : BoardConfig
deriving DecidableEq

/-- A freshly constructed driver (`initialized_ = false`,
`last_fault_byte_ = 0xFF`, default caches). -/
def Driver.mk0 (board : BoardConfig) : Driver where
  initialized := false
  last_fault_byte := 0xFF
  statistics := DriverStatistics.init
  cached_status := StatusConfig.default
  board_config := board

/-- `updateStatistics` lifted to the driver state. -/
def updateStats (success : Prop) [Decidable success] (d : Driver) : Driver :=
  { d with statistics := d.statistics.update (decide success) }

/-! ### Two-phase SPI protocol (private members of MAX22200) -/

/-- `writeCommandRegister`: CMD pin high, transfer the 1-byte command,
CMD pin low; a transport failure is COMMUNICATION_ERROR and leaves
`last_fault_byte_` untouched, success stores the received fault byte. -/
def writeCommandRegister (d : Driver) (w : World) (bank : Nat)
    (is_write mode8 : Bool) : DriverStatus × Driver × World :=
  let cmd := CommandReg.build bank is_write mode8
  let w1 := { w with cmdPin := true }
  match transfer w1 [cmd] with
  | (none, w2) => (.COMMUNICATION_ERROR, d, { w2 with cmdPin := false })
  | (some rx, w2) =>
    (.OK, { d with last_fault_byte := rx.headD 0xFF }, { w2 with cmdPin := false })

/-- The 4 bytes clocked out by `writeData32`, in ascending significance
order (datasheet Figure 10: first byte = DATAIN[7:0]). -/
def writeData32Tx (value : Nat) : List Nat :=
  [value % 256, value / 2 ^ 8 % 256, value / 2 ^ 16 % 256, value / 2 ^ 24 % 256]

/-- Phase-2 32-bit write. -/
def writeData32 (w : World) (value : Nat) : DriverStatus × World :=
  match transfer w (writeData32Tx value) with
  | (none, w1) => (.COMMUNICATION_ERROR, w1)
  | (some _, w1) => (.OK, w1)

/-- The value assembled by `readData32` from the 4 received bytes, in
descending significance order (datasheet Figure 11: first byte =
DATA[31:24]). -/
def assemble32 (rx : List Nat) : Nat :=
  rx.headD 0 * 2 ^ 24 + (rx.drop 1).headD 0 * 2 ^ 16 +
  (rx.drop 2).headD 0 * 2 ^ 8 + (rx.drop 3).headD 0

/-- Phase-2 32-bit read (zero-fill transmitted; value is 0 on failure,
callers only use it on OK). -/
def readData32 (w : World) : DriverStatus × Nat × World :=
  match transfer w [0, 0, 0, 0] with
  | (none, w1) => (.COMMUNICATION_ERROR, 0, w1)
  | (some rx, w1) => (.OK, assemble32 rx, w1)

/-- Phase-2 8-bit fast write (MSB of the register only). -/
def writeData8 (w : World) (value : Nat) : DriverStatus × World :=
  match transfer w [value % 256] with
  | (none, w1) => (.COMMUNICATION_ERROR, w1)
  | (some _, w1) => (.OK, w1)

/-- `writeReg32`: command phase then 32-bit data phase; aborts after the
command phase on failure. -/
def writeReg32 (d : Driver) (w : World) (bank value : Nat) :
    DriverStatus × Driver × World :=
  match writeCommandRegister d w bank true false with
  | (.OK, d1, w1) =>
    let (r, w2) := writeData32 w1 value
    (r, d1, w2)
  | (r, d1, w1) => (r, d1, w1)

/-- `readReg32`: command phase then 32-bit data phase. -/
def readReg32 (d : Driver) (w : World) (bank : Nat) :
    DriverStatus × Nat × Driver × World :=
  match writeCommandRegister d w bank false false with
  | (.OK, d1, w1) =>
    let (r, v, w2) := readData32 w1
    (r, v, d1, w2)
  | (r, d1, w1) => (r, 0, d1, w1)

/-- `writeReg8`: command phase then 8-bit fast data phase. -/
def writeReg8 (d : Driver) (w : World) (bank value : Nat) :
    DriverStatus × Driver × World :=
  match writeCommandRegister d w bank true true with
  | (.OK, d1, w1) =>
    let (r, w2) := writeData8 w1 value
    (r, d1, w2)
  | (r, d1, w1) => (r, d1, w1)

/-! ### STATUS register operations -/

/-- `ReadStatus`: 32-bit read of bank 0; on success decodes into the
out-parameter and refreshes the cached status. -/
def ReadStatus (d : Driver) (w : World) (status : StatusConfig) :
    DriverStatus × StatusConfig × Driver × World :=
  match readReg32 d w 0 with
  | (.OK, raw, d1, w1) =>
    let st := StatusConfig.fromRegister raw
    (.OK, st, { d1 with cached_status := st }, w1)
  | (r, _, d1, w1) => (r, status, d1, w1)

/-- `WriteStatus`: 32-bit write of bank 0; on success the cache is kept
in sync with the written value. -/
def WriteStatus (d : Driver) (w : World) (status : StatusConfig) :
    DriverStatus × Driver × World :=
  match writeReg32 d w 0 status.toRegister with
  | (.OK, d1, w1) => (.OK, { d1 with cached_status := status }, w1)
  | (r, d1, w1) => (r, d1, w1)

/-! ### Initialization (max22200.ipp, datasheet Figure 6 flowchart)

The C++ `for (attempt = 0; attempt < 3; ++attempt)` loop is unrolled:
one attempt either finishes `Initialize` (`done`) or falls through to the
next attempt on a COMER fault byte (`retry`, the loop's `continue`). -/

inductive AttemptOut where
  | done : DriverStatus → Driver → World → AttemptOut
  | retry : StatusConfig → Driver → World → AttemptOut

/-- One attempt of the `Initialize` retry loop: read STATUS (retry on
fault byte 0x04), write STATUS with ACTIVE=1 / all channels off / COMER
masked (retry on 0x04), cache it, re-read STATUS (retry on 0x04); any
transfer failure deasserts ENABLE and finishes with that error. -/
def initAttempt (status : StatusConfig) (d : Driver) (w : World) : AttemptOut :=
  match ReadStatus d w status with
  | (.OK, status1, d1, w1) =>
    if d1.last_fault_byte = 0x04 then .retry status1 d1 w1
    else
      let status2 := { status1 with
        active := true, channels_on_mask := 0,
        communication_error_masked := true }
      match WriteStatus d1 w1 status2 with
      | (.OK, d2, w2) =>
        if d2.last_fault_byte = 0x04 then .retry status2 d2 w2
        else
          let d3 := { d2 with cached_status := status2 }
          match ReadStatus d3 w2 status2 with
          | (.OK, status3, d4, w3) =>
            if d4.last_fault_byte = 0x04 then .retry status3 d4 w3
            else
              .done .OK
                (updateStats True
                  { d4 with cached_status := status3, initialized := true }) w3
          | (r, _, d4, w3) =>
            .done r (updateStats False d4) { w3 with enable := false }
      | (r, d2, w2) =>
        .done r (updateStats False d2) { w2 with enable := false }
  | (r, _, d1, w1) =>
    .done r (updateStats False d1) { w1 with enable := false }

/-- `MAX22200::Initialize`: no-op when already initialized; transport
init/configure failures are INITIALIZATION_ERROR; then ENABLE is asserted
and up to 3 attempts run; exhausting them on persistent COMER deasserts
ENABLE and returns COMMUNICATION_ERROR. -/
def Initialize (d : Driver) (w : World) : DriverStatus × Driver × World :=
  if d.initialized then (.OK, d, w)
  else if w.initOk = false then (.INITIALIZATION_ERROR, updateStats False d, w)
  else if w.configOk = false then (.INITIALIZATION_ERROR, updateStats False d, w)
  else
    let w1 := { w with enable := true }
    match initAttempt StatusConfig.default d w1 with
    | .done r d1 w2 => (r, d1, w2)
    | .retry s1 d1 w2 =>
      match initAttempt s1 d1 w2 with
      | .done r d2 w3 => (r, d2, w3)
      | .retry s2 d2 w3 =>
        match initAttempt s2 d2 w3 with
        | .done r d3 w4 => (r, d3, w4)
        | .retry _ d3 w4 =>
          (.COMMUNICATION_ERROR, updateStats False d3, { w4 with enable := false })

/-! ### Channel enable fast path and teardown -/

/-- `SetChannelsOn`: store the new mask in the cache, then issue the fast
8-bit write of STATUS[31:24] (note the cache is updated before the bus
transfer). -/
def SetChannelsOn (d : Driver) (w : World) (channel_mask : Nat) :
    DriverStatus × Driver × World :=
  let d1 := { d with cached_status :=
    { d.cached_status with channels_on_mask := channel_mask } }
  match writeReg8 d1 w 0 channel_mask with
  | (r, d2, w1) => (r, updateStats (r = .OK) d2, w1)

/-- `SetAllChannelsEnabled`: cache mask 0xFF or 0x00 and fast-write it. -/
def SetAllChannelsEnabled (d : Driver) (w : World) (enable : Bool) :
    DriverStatus × Driver × World :=
  let m := if enable then 0xFF else 0x00
  let d1 := { d with cached_status :=
    { d.cached_status with channels_on_mask := m } }
  SetChannelsOn d1 w m

/-- `DisableAllChannels`. -/
def DisableAllChannels (d : Driver) (w : World) : DriverStatus × Driver × World :=
  SetAllChannelsEnabled d w false

/-- `MAX22200::Deinitialize`: no-op when not initialized; otherwise
disable all channels (fast 8-bit write of mask 0), clear ACTIVE and the
mask in the cached status and write it, deassert ENABLE, and leave the
uninitialized state, returning OK (bus errors during teardown are
ignored, as in the source). -/
def Deinitialize (d : Driver) (w : World) : DriverStatus × Driver × World :=
  if d.initialized = false then (.OK, d, w)
  else
    match DisableAllChannels d w with
    | (_, d1, w1) =>
      let st := { d1.cached_status with active := false, channels_on_mask := 0 }
      match WriteStatus { d1 with cached_status := st } w1 st with
      | (_, d3, w2) =>
        (.OK, updateStats True { d3 with initialized := false },
          { w2 with enable := false })

/-! ### Channel configuration -/

/-- `MAX22200::ConfigureChannel`: parameter validation (channel range,
CDR-needs-IFS, SRC only below 50 kHz using the cached clock base) happens
before any bus access; valid requests encode via the codec, using the
board's full-scale current and the cached clock-base flag as context, and
write the channel's CFG bank. -/
def ConfigureChannel (d : Driver) (w : World) (channel : Nat)
    (config : ChannelConfig) : DriverStatus × Driver × World :=
  if ¬ channel < 8 then (.INVALID_PARAMETER, updateStats False d, w)
  else if config.drive_mode = .CDR ∧ d.board_config.full_scale_current_ma = 0 then
    (.INVALID_PARAMETER, updateStats False d, w)
  else if config.slew_rate_control_enabled ∧
      50 ≤ getChopFreqKhz d.cached_status.master_clock_80khz config.chop_freq then
    (.INVALID_PARAMETER, updateStats False d, w)
  else
    let cfg := { config with
      full_scale_current_ma := d.board_config.full_scale_current_ma,
      master_clock_80khz := d.cached_status.master_clock_80khz }
    match writeReg32 d w (getChannelCfgBank channel) cfg.toRegister with
    | (r, d1, w1) => (r, updateStats (r = .OK) d1, w1)

/-! ### Concrete instances used to instantiate the theorems -/

/-- A ready transport whose oracle supplies the given events. -/
def mkWorld (events : List XferRes) : World where
  initOk := true
  configOk := true
  events := events
  enable := false
  cmdPin := false
  log := []

/-- A freshly constructed driver over the default board configuration. -/
def sampleDriver : Driver := Driver.mk0 BoardConfig.default

/-- A CDR channel configuration over an extreme full-scale current whose
integer-mA re-encoding overflows the 32-bit intermediate of
`currentMaToRaw` (16,000,000 mA at IFS = 4,000,000,000 mA). -/
def wrapConfig : ChannelConfig where
  hit_current_value := 16000000
  hold_current_value := 0
  hit_time_ms := 0
  full_scale_current_ma := 4000000000
  master_clock_80khz := false
  half_full_scale := false
  trigger_from_pin := false
  drive_mode := .CDR
  side_mode := .LOW_SIDE
  chop_freq := .FMAIN_DIV4
  slew_rate_control_enabled := false
  open_load_detection_enabled := false
  plunger_movement_detection_enabled := false
  hit_current_check_enabled := false

/-- A statistics state one recorded operation away from wraparound of the
total-transfer counter, with one failure on record. -/
def wrapStats : DriverStatistics where
  total_transfers := 2 ^ 32 - 1
  failed_transfers := 1
  fault_events := 0
  state_changes := 0
  uptime_ms := 0

/-! ## Helper lemmas on the rounding arithmetic -/

/-- `(a + ⌊b/2⌋) / b` (the C idiom for round-half-up with unsigned
division) equals `⌊(2a+b) / 2b⌋`. -/
lemma natDiv_half_add (a b : ℕ) : (a + b / 2) / b = (2 * a + b) / (2 * b) := by
  rcases Nat.even_or_odd b with ⟨c, rfl⟩ | ⟨c, rfl⟩
  · rcases Nat.eq_zero_or_pos c with rfl | hc
    · simp
    · have h1 : (c + c) / 2 = c := by omega
      rw [h1, show c + c = 2 * c from by ring,
        show 2 * a + 2 * c = 2 * (a + c) from by ring,
        show 2 * (2 * c) = 2 * (2 * c) from rfl,
        Nat.mul_div_mul_left _ _ (by omega : 0 < 2)]
  · have h1 : (2 * c + 1) / 2 = c := by omega
    rw [h1]
    have hq := Nat.div_add_mod (a + c) (2 * c + 1)
    set q := (a + c) / (2 * c + 1) with hqdef
    set r := (a + c) % (2 * c + 1) with hrdef
    have hr : r < 2 * c + 1 := Nat.mod_lt _ (by omega)
    have h2 : 2 * a + (2 * c + 1) = 2 * (2 * c + 1) * q + (2 * r + 1) := by
      calc 2 * a + (2 * c + 1) = 2 * ((2 * c + 1) * q + r) + 1 := by omega
        _ = 2 * (2 * c + 1) * q + (2 * r + 1) := by ring
    rw [h2, Nat.mul_add_div (by omega), Nat.div_eq_of_lt (by omega), Nat.add_zero]

/-- Round-half-up of a nonnegative rational `a/b` as a natural division. -/
lemma floor_half_div (a b : ℕ) (hb : 0 < b) :
    ⌊(a : ℚ) / b + 1 / 2⌋₊ = (2 * a + b) / (2 * b) := by
  have hb' : (b : ℚ) ≠ 0 := Nat.cast_ne_zero.mpr hb.ne'
  have h : (a : ℚ) / b + 1 / 2 = ((2 * a + b : ℕ) : ℚ) / ((2 * b : ℕ) : ℚ) := by
    push_cast
    field_simp
    ring
  rw [h, Nat.floor_div_eq_div]

/-- The 7-bit CDR encoder is bounded by 127. -/
lemma currentMaToRaw_le (b a : ℕ) : currentMaToRaw b a ≤ 127 := by
  unfold currentMaToRaw
  split
  · omega
  · split
    · omega
    · exact min_le_right _ _

/-- Below full scale, and when the 32-bit intermediate does not wrap, the
CDR encoder computes round-half-up of `ma / IFS × 127` (the final 127
clamp never fires there). -/
lemma currentMaToRaw_round (b a : ℕ) (hb : 0 < b) (hab : a < b)
    (hnw : a * 127 + b / 2 < 2 ^ 32) :
    currentMaToRaw b a = ⌊(a : ℚ) / b * 127 + 1 / 2⌋₊ := by
  have harg : (a : ℚ) / b * 127 + 1 / 2 = ((127 * a : ℕ) : ℚ) / b + 1 / 2 := by
    push_cast
    ring
  rw [harg, floor_half_div _ _ hb]
  unfold currentMaToRaw
  rw [if_neg (by omega), if_neg (by omega), Nat.mod_eq_of_lt hnw]
  have hdiv : (a * 127 + b / 2) / b = (2 * (a * 127) + b) / (2 * b) :=
    natDiv_half_add (a * 127) b
  have hle : (2 * (a * 127) + b) / (2 * b) ≤ 127 := by
    rw [Nat.div_le_iff_le_mul_add_pred (by omega)]
    omega
  rw [hdiv, min_eq_left hle]
  congr 1
  omega

end Max22200

namespace Max22200

/-! ## Round-trip lemmas for the channel-configuration codec -/

/-- The setpoint encoders produce 7-bit values. -/
lemma encodeSetpoint_le (dm : DriveMode) (ifs : Nat) (v : ℚ) :
    encodeSetpoint dm ifs v ≤ 127 := by
  cases dm
  · simp only [encodeSetpoint]
    split_ifs
    · omega
    · omega
    · exact currentMaToRaw_le _ _
  · simp only [encodeSetpoint]
    split_ifs
    · omega
    · omega
    · exact min_le_right _ _

/-- The HIT-time encoder produces 8-bit values. -/
lemma hitTimeMsToRaw_le (ms : ℚ) (clk : Bool) (cf : ChopFreq) :
    hitTimeMsToRaw ms clk cf ≤ 255 := by
  simp only [hitTimeMsToRaw]
  split_ifs <;> omega

/-- The chopping frequency table only returns positive frequencies. -/
lemma getChopFreqKhz_pos (clk : Bool) (cf : ChopFreq) :
    0 < getChopFreqKhz clk cf := by
  cases cf <;> cases clk <;> decide

/-- FREQ_CFG bits are 2-bit values and decode back to the selector. -/
lemma chopFreqBits_inv (cf : ChopFreq) :
    chopFreqBits cf ≤ 3 ∧ chopFreqOfBits (chopFreqBits cf) = cf := by
  cases cf <;> exact ⟨by decide, rfl⟩

/-- Round-half-up of a natural number is the identity. -/
lemma floor_add_half (t : Nat) : ⌊(t : ℚ) + 1 / 2⌋₊ = t := by
  rw [Nat.floor_eq_iff (by positivity)]
  constructor
  · linarith
  · linarith

/-- Decoding then re-encoding a HIT-time raw value that came from the
encoder is the identity (raw 0 and the continuous code 255 map to their
sentinels; 1..254 is exact up to the rounding that reproduces it). -/
lemma hitTime_roundtrip (ms : ℚ) (clk : Bool) (cf : ChopFreq) :
    hitTimeMsToRaw (decodeHitTime (hitTimeMsToRaw ms clk cf) clk cf) clk cf =
      hitTimeMsToRaw ms clk cf := by
  have ht := hitTimeMsToRaw_le ms clk cf
  have hf : 0 < getChopFreqKhz clk cf := getChopFreqKhz_pos clk cf
  have hfq : (0 : ℚ) < (getChopFreqKhz clk cf : ℚ) := by exact_mod_cast hf
  have hf20 : (20 : ℚ) ≤ (getChopFreqKhz clk cf : ℚ) := by
    have h20 : 20 ≤ getChopFreqKhz clk cf := by cases cf <;> cases clk <;> decide
    exact_mod_cast h20
  set t := hitTimeMsToRaw ms clk cf with htdef
  by_cases h0 : t = 0
  · rw [h0]
    unfold decodeHitTime
    rw [if_pos rfl]
    unfold hitTimeMsToRaw
    rw [if_neg (by norm_num), if_pos rfl]
  by_cases h255 : t = 255
  · rw [h255]
    unfold decodeHitTime
    rw [if_neg (by norm_num), if_pos rfl]
    unfold hitTimeMsToRaw
    rw [if_pos (Or.inl (by norm_num))]
  · have h1 : 1 ≤ t := by omega
    have h254 : t ≤ 254 := by omega
    unfold decodeHitTime
    rw [if_neg h0, if_neg h255]
    set f : ℚ := (getChopFreqKhz clk cf : ℚ) with hfdef
    have hms : (0 : ℚ) < (t : ℚ) * 40 / (f * 1000) * 1000 := by
      have htq : (0 : ℚ) < (t : ℚ) := by exact_mod_cast h1
      positivity
    have hmsval : (t : ℚ) * 40 / (f * 1000) * 1000 ≤ 508000 := by
      rw [div_mul_eq_mul_div, div_le_iff₀ (by positivity)]
      have hts : (t : ℚ) ≤ 254 := by exact_mod_cast h254
      nlinarith
    unfold hitTimeMsToRaw
    rw [if_neg (by push_neg; constructor <;> nlinarith), if_neg (ne_of_gt hms)]
    have harg : (t : ℚ) * 40 / (f * 1000) * 1000 / 1000 * (f * 1000) / 40 + 1 / 2 =
        (t : ℚ) + 1 / 2 := by
      field_simp
      ring
    rw [harg, floor_add_half]
    rw [if_neg (by omega), if_neg (by omega)]

/-- Decoding then re-encoding a VDR duty raw value in 0..127 is the
identity. -/
lemma vdr_decode_encode (ifs r : Nat) (hr : r ≤ 127) :
    encodeSetpoint .VDR ifs (decodeSetpoint .VDR ifs r) = r := by
  unfold decodeSetpoint encodeSetpoint
  by_cases h0 : r = 0
  · subst h0
    norm_num
  by_cases h127 : r = 127
  · subst h127
    norm_num
  · have h1 : 1 ≤ r := by omega
    have hlt : r ≤ 126 := by omega
    have hp : (0 : ℚ) < (r : ℚ) / 127 * 100 := by
      have : (0 : ℚ) < (r : ℚ) := by exact_mod_cast h1
      positivity
    have hq : (r : ℚ) / 127 * 100 < 100 := by
      have : (r : ℚ) < 127 := by exact_mod_cast (by omega : r < 127)
      rw [div_mul_eq_mul_div, div_lt_iff₀ (by norm_num)]
      nlinarith
    rw [if_neg (not_le.mpr hp), if_neg (not_le.mpr hq)]
    have harg : (r : ℚ) / 127 * 100 / 100 * 127 + 1 / 2 = (r : ℚ) + 1 / 2 := by
      field_simp
      ring
    rw [harg, floor_add_half, min_eq_left hr]

/-- Decoding raw 127 in CDR yields exactly the full-scale current, which
re-encodes to 127. -/
lemma cdr_decode_encode_127 (ifs : Nat) (hifs : 0 < ifs) :
    encodeSetpoint .CDR ifs (decodeSetpoint .CDR ifs 127) = 127 := by
  simp only [decodeSetpoint, encodeSetpoint]
  rw [if_pos hifs, if_neg (by omega : ¬ ifs = 0), if_pos (by norm_num)]

/-- The heavy case of the CDR round trip: a raw value below 127 produced
by `currentMaToRaw`, decoded to `raw/127 × IFS` mA and re-rounded through
the integer-mA cast, re-encodes to itself, provided the full-scale
current is small enough that the 32-bit intermediates cannot wrap. -/
lemma cdr_decode_encode_main (ifs m : Nat) (hifs : 0 < ifs) (hm : m < ifs)
    (hbound : 127 * ifs + ifs / 2 < 2 ^ 32)
    (h127 : currentMaToRaw ifs m ≠ 127) :
    encodeSetpoint .CDR ifs (decodeSetpoint .CDR ifs (currentMaToRaw ifs m)) =
      currentMaToRaw ifs m := by
  have hle := currentMaToRaw_le ifs m
  set r := currentMaToRaw ifs m with hrdef
  have hr126 : r ≤ 126 := by omega
  have hnw1 : m * 127 + ifs / 2 < 2 ^ 32 := by
    have h1 : m * 127 ≤ (ifs - 1) * 127 := Nat.mul_le_mul_right _ (by omega)
    omega
  have hmin : r = min ((m * 127 + ifs / 2) / ifs) 127 := by
    rw [hrdef]
    unfold currentMaToRaw
    rw [if_neg (by omega), if_neg (by omega), Nat.mod_eq_of_lt hnw1]
  have hrval : r = (2 * (m * 127) + ifs) / (2 * ifs) := by
    rcases le_or_lt ((m * 127 + ifs / 2) / ifs) 127 with hd | hd
    · rw [hmin, min_eq_left hd, natDiv_half_add]
    · exact absurd (hmin.trans (min_eq_right hd.le)) h127
  -- decode and re-encode
  simp only [decodeSetpoint]
  rw [if_pos hifs]
  have hvlt : ((r : ℚ) / 127) * (ifs : ℚ) < (ifs : ℚ) := by
    have hq1 : ((r : ℚ) / 127) < 1 := by
      rw [div_lt_one (by norm_num)]
      exact_mod_cast (by omega : r < 127)
    have hq2 : (0 : ℚ) < (ifs : ℚ) := by exact_mod_cast hifs
    nlinarith
  simp only [encodeSetpoint]
  rw [if_neg (by omega : ¬ ifs = 0), if_neg (not_le.mpr hvlt)]
  have hma1 : ⌊(r : ℚ) / 127 * (ifs : ℚ) + 1 / 2⌋₊ = (2 * (r * ifs) + 127) / (2 * 127) := by
    rw [show (r : ℚ) / 127 * (ifs : ℚ) = ((r * ifs : ℕ) : ℚ) / 127 from by
      push_cast; ring]
    exact floor_half_div (r * ifs) 127 (by norm_num)
  rw [hma1]
  -- division characterizations of r and of the re-rounded mA value
  have hchar1a : 2 * (r * ifs) ≤ 2 * (m * 127) + ifs := by
    have := Nat.div_mul_le_self (2 * (m * 127) + ifs) (2 * ifs)
    rw [← hrval] at this
    calc 2 * (r * ifs) = r * (2 * ifs) := by ring
      _ ≤ 2 * (m * 127) + ifs := this
  have hchar1b : 2 * (m * 127) + ifs < 2 * (r * ifs) + 2 * ifs := by
    have hlt := Nat.lt_mul_div_succ (2 * (m * 127) + ifs)
      (show 0 < 2 * ifs by omega)
    rw [← hrval] at hlt
    calc 2 * (m * 127) + ifs < 2 * ifs * (r + 1) := hlt
      _ = 2 * (r * ifs) + 2 * ifs := by ring
  set ma1 := (2 * (r * ifs) + 127) / (2 * 127) with hma1def
  have hchar2a : ma1 * 254 ≤ 2 * (r * ifs) + 127 := by
    have := Nat.div_mul_le_self (2 * (r * ifs) + 127) (2 * 127)
    calc ma1 * 254 = (2 * (r * ifs) + 127) / (2 * 127) * (2 * 127) := by
          rw [← hma1def]
      _ ≤ 2 * (r * ifs) + 127 := this
  have hchar2b : 2 * (r * ifs) + 127 < ma1 * 254 + 254 := by
    have hlt := Nat.lt_mul_div_succ (2 * (r * ifs) + 127)
      (show 0 < 2 * 127 by norm_num)
    calc 2 * (r * ifs) + 127 < 2 * 127 * ((2 * (r * ifs) + 127) / (2 * 127) + 1) := hlt
      _ = ma1 * 254 + 254 := by rw [← hma1def]; ring
  have hXle : r * ifs ≤ 126 * ifs := Nat.mul_le_mul_right ifs hr126
  set X := r * ifs with hXdef
  rcases le_or_lt 127 ifs with hbig | hsmall
  · -- IFS at least one mA per raw step: the rounded mA stays in range
    have hma1lt : ma1 < ifs := by omega
    have hnw2 : ma1 * 127 + ifs / 2 < 2 ^ 32 := by
      have h1 : ma1 * 127 ≤ (ifs - 1) * 127 := Nat.mul_le_mul_right _ (by omega)
      omega
    unfold currentMaToRaw
    rw [if_neg (by omega), if_neg (by omega : ¬ ifs ≤ ma1),
      Nat.mod_eq_of_lt hnw2]
    have hdd : (ma1 * 127 + ifs / 2) / ifs = r := by
      rw [natDiv_half_add]
      apply Nat.div_eq_of_lt_le
      · rw [show r * (2 * ifs) = 2 * X from by rw [hXdef]; ring]
        omega
      · rw [show (r + 1) * (2 * ifs) = 2 * X + 2 * ifs from by rw [hXdef]; ring]
        omega
    rw [hdd, min_eq_left (by omega)]
  · -- IFS below 127: the rounded mA is exactly the original integer mA
    have hma1m : ma1 = m := by omega
    rw [hma1m]

/-- Decoding then re-encoding a CDR raw value that came from the encoder
is the identity, for full-scale currents below the 32-bit overflow
threshold. -/
lemma cdr_decode_encode (ifs m : Nat) (hifs : 0 < ifs)
    (hbound : 127 * ifs + ifs / 2 < 2 ^ 32) :
    encodeSetpoint .CDR ifs (decodeSetpoint .CDR ifs (currentMaToRaw ifs m)) =
      currentMaToRaw ifs m := by
  by_cases hm : ifs ≤ m
  · have h : currentMaToRaw ifs m = 127 := by
      unfold currentMaToRaw
      rw [if_neg (by omega), if_pos hm]
    rw [h]
    exact cdr_decode_encode_127 ifs hifs
  · by_cases h127 : currentMaToRaw ifs m = 127
    · rw [h127]
      exact cdr_decode_encode_127 ifs hifs
    · exact cdr_decode_encode_main ifs m hifs (by omega) hbound h127

/-- Decoding then re-encoding any setpoint raw value that came from the
encoder is the identity: unconditionally in VDR mode, and in CDR mode
whenever the full-scale current is below the 32-bit overflow threshold. -/
lemma setpoint_roundtrip (dm : DriveMode) (ifs : Nat) (v : ℚ)
    (hbound : dm = .CDR → 127 * ifs + ifs / 2 < 2 ^ 32) :
    encodeSetpoint dm ifs (decodeSetpoint dm ifs (encodeSetpoint dm ifs v)) =
      encodeSetpoint dm ifs v := by
  cases dm
  · by_cases hifs : ifs = 0
    · subst hifs
      simp only [encodeSetpoint, decodeSetpoint]
      norm_num
    · have hpos : 0 < ifs := by omega
      by_cases hv : (ifs : ℚ) ≤ v
      · have he : encodeSetpoint .CDR ifs v = 127 := by
          simp only [encodeSetpoint]
          rw [if_neg hifs, if_pos hv]
        rw [he]
        exact cdr_decode_encode_127 ifs hpos
      · have he : encodeSetpoint .CDR ifs v = currentMaToRaw ifs ⌊v + 1 / 2⌋₊ := by
          simp only [encodeSetpoint]
          rw [if_neg hifs, if_neg hv]
        rw [he]
        exact cdr_decode_encode ifs ⌊v + 1 / 2⌋₊ hpos (hbound rfl)
  · exact vdr_decode_encode ifs _ (encodeSetpoint_le .VDR ifs v)

/-- An `if`-guarded power-of-two bit equals a 0/1 flag times the power. -/
lemma if_bit_mul (p : Prop) [Decidable p] (k : Nat) :
    (if p then k else 0) = (if p then 1 else 0) * k := by
  split <;> simp

/-- Extraction of every fixed-offset field from the packed CFG_CHx word. -/
lemma pack_extract (x b31 b23 b7 b6 b3 b2 b1 b0 hold hit hitt fr : Nat)
    (hx : x = b31 * 2 ^ 31 + hold * 2 ^ 24 + b23 * 2 ^ 23 + hit * 2 ^ 16 +
      hitt * 2 ^ 8 + b7 * 2 ^ 7 + b6 * 2 ^ 6 + fr * 2 ^ 4 + b3 * 2 ^ 3 +
      b2 * 2 ^ 2 + b1 * 2 ^ 1 + b0)
    (h31 : b31 ≤ 1) (h23 : b23 ≤ 1) (h7 : b7 ≤ 1) (h6 : b6 ≤ 1)
    (h3 : b3 ≤ 1) (h2 : b2 ≤ 1) (h1 : b1 ≤ 1) (h0 : b0 ≤ 1)
    (hhold : hold ≤ 127) (hhit : hit ≤ 127) (hhitt : hitt ≤ 255)
    (hfr : fr ≤ 3) :
    x / 2 ^ 31 % 2 = b31 ∧ x / 2 ^ 24 % 128 = hold ∧ x / 2 ^ 23 % 2 = b23 ∧
    x / 2 ^ 16 % 128 = hit ∧ x / 2 ^ 8 % 256 = hitt ∧ x / 2 ^ 7 % 2 = b7 ∧
    x / 2 ^ 6 % 2 = b6 ∧ x / 2 ^ 4 % 4 = fr ∧ x / 2 ^ 3 % 2 = b3 ∧
    x / 2 ^ 2 % 2 = b2 ∧ x / 2 ^ 1 % 2 = b1 ∧ x % 2 = b0 := by
  subst hx
  refine ⟨?_, ?_, ?_, ?_, ?_, ?_, ?_, ?_, ?_, ?_, ?_, ?_⟩ <;> omega

/-- `ChannelConfig::toRegister` as a sum of 0/1 flags and bounded fields
at their fixed offsets (the 7-bit masks dropped using the encoder
bounds). -/
lemma toRegister_eq (c : ChannelConfig) :
    c.toRegister =
      (if c.half_full_scale then 1 else 0) * 2 ^ 31 +
      encodeSetpoint c.drive_mode c.full_scale_current_ma c.hold_current_value * 2 ^ 24 +
      (if c.trigger_from_pin then 1 else 0) * 2 ^ 23 +
      encodeSetpoint c.drive_mode c.full_scale_current_ma c.hit_current_value * 2 ^ 16 +
      hitTimeMsToRaw c.hit_time_ms c.master_clock_80khz c.chop_freq * 2 ^ 8 +
      (if c.drive_mode = .VDR then 1 else 0) * 2 ^ 7 +
      (if c.side_mode = .HIGH_SIDE then 1 else 0) * 2 ^ 6 +
      chopFreqBits c.chop_freq * 2 ^ 4 +
      (if c.slew_rate_control_enabled then 1 else 0) * 2 ^ 3 +
      (if c.open_load_detection_enabled then 1 else 0) * 2 ^ 2 +
      (if c.plunger_movement_detection_enabled then 1 else 0) * 2 ^ 1 +
      (if c.hit_current_check_enabled then 1 else 0) := by
  simp only [ChannelConfig.toRegister]
  rw [Nat.mod_eq_of_lt (lt_of_le_of_lt
      (encodeSetpoint_le c.drive_mode c.full_scale_current_ma c.hold_current_value)
      (by norm_num)),
    Nat.mod_eq_of_lt (lt_of_le_of_lt
      (encodeSetpoint_le c.drive_mode c.full_scale_current_ma c.hit_current_value)
      (by norm_num)),
    if_bit_mul (c.half_full_scale = true) (2 ^ 31),
    if_bit_mul (c.trigger_from_pin = true) (2 ^ 23),
    if_bit_mul (c.drive_mode = .VDR) (2 ^ 7),
    if_bit_mul (c.side_mode = .HIGH_SIDE) (2 ^ 6),
    if_bit_mul (c.slew_rate_control_enabled = true) (2 ^ 3),
    if_bit_mul (c.open_load_detection_enabled = true) (2 ^ 2),
    if_bit_mul (c.plunger_movement_detection_enabled = true) (2 ^ 1)]

/-! ## Projection lemmas on the protocol operations -/

/-- The command phase touches only the last-fault byte of the driver. -/
lemma writeCommandRegister_proj (d : Driver) (w : World) (bank : Nat)
    (iw m8 : Bool) :
    (writeCommandRegister d w bank iw m8).2.1.cached_status = d.cached_status ∧
    (writeCommandRegister d w bank iw m8).2.1.initialized = d.initialized ∧
    (writeCommandRegister d w bank iw m8).2.1.board_config = d.board_config ∧
    (writeCommandRegister d w bank iw m8).2.1.statistics = d.statistics := by
  unfold writeCommandRegister transfer
  rcases hev : w.events with _ | ⟨e, rest⟩
  · simp [hev]
  · cases e <;> simp [hev]

/-- `writeReg8` touches only the last-fault byte of the driver. -/
lemma writeReg8_proj (d : Driver) (w : World) (bank v : Nat) :
    (writeReg8 d w bank v).2.1.cached_status = d.cached_status ∧
    (writeReg8 d w bank v).2.1.initialized = d.initialized ∧
    (writeReg8 d w bank v).2.1.board_config = d.board_config ∧
    (writeReg8 d w bank v).2.1.statistics = d.statistics := by
  have hp := writeCommandRegister_proj d w bank true true
  unfold writeReg8
  rcases h : writeCommandRegister d w bank true true with ⟨r, d1, w1⟩
  rw [h] at hp
  rcases h2 : writeData8 w1 v with ⟨r2, w2⟩
  cases r <;> simp [h2] <;> exact hp

/-- `writeReg32` touches only the last-fault byte of the driver. -/
lemma writeReg32_proj (d : Driver) (w : World) (bank v : Nat) :
    (writeReg32 d w bank v).2.1.cached_status = d.cached_status ∧
    (writeReg32 d w bank v).2.1.initialized = d.initialized ∧
    (writeReg32 d w bank v).2.1.board_config = d.board_config := by
  have hp := writeCommandRegister_proj d w bank true false
  unfold writeReg32
  rcases h : writeCommandRegister d w bank true false with ⟨r, d1, w1⟩
  rw [h] at hp
  rcases h2 : writeData32 w1 v with ⟨r2, w2⟩
  cases r <;> simp [h2] <;> exact ⟨hp.1, hp.2.1, hp.2.2.1⟩

/-- `SetChannelsOn` always leaves the cache with the new mask (it is
committed before the bus transfer) and preserves the other controller
fields. -/
lemma SetChannelsOn_proj (d : Driver) (w : World) (mask : Nat) :
    (SetChannelsOn d w mask).2.1.cached_status =
      { d.cached_status with channels_on_mask := mask } ∧
    (SetChannelsOn d w mask).2.1.initialized = d.initialized ∧
    (SetChannelsOn d w mask).2.1.board_config = d.board_config := by
  have key : ∀ (d' : Driver),
      (SetChannelsOn d' w mask).2.1.cached_status =
        { d'.cached_status with channels_on_mask := mask } ∧
      (SetChannelsOn d' w mask).2.1.initialized = d'.initialized ∧
      (SetChannelsOn d' w mask).2.1.board_config = d'.board_config := by
    intro d'
    have hp := writeReg8_proj
      { d' with cached_status :=
        { d'.cached_status with channels_on_mask := mask } } w 0 mask
    rcases h : writeReg8
        { d' with cached_status :=
          { d'.cached_status with channels_on_mask := mask } }
        w 0 mask with ⟨r, d2, w1⟩
    rw [h] at hp
    simp only [SetChannelsOn, updateStats]
    rw [h]
    exact ⟨hp.1, hp.2.1, hp.2.2.1⟩
  exact key d

/-- `WriteStatus` leaves the cache at the written value when the cache
already held it, and preserves the other controller fields. -/
lemma WriteStatus_proj (d : Driver) (w : World) (st : StatusConfig)
    (hc : d.cached_status = st) :
    (WriteStatus d w st).2.1.cached_status = st ∧
    (WriteStatus d w st).2.1.initialized = d.initialized ∧
    (WriteStatus d w st).2.1.board_config = d.board_config := by
  have hp := writeReg32_proj d w 0 st.toRegister
  unfold WriteStatus
  rcases h : writeReg32 d w 0 st.toRegister with ⟨r, d1, w1⟩
  rw [h] at hp
  cases r
  case OK => exact ⟨rfl, hp.2.1, hp.2.2⟩
  all_goals exact ⟨hp.1.trans hc, hp.2.1, hp.2.2⟩

/-- `DisableAllChannels` zeroes the cached mask and preserves the other
controller fields. -/
lemma DisableAllChannels_proj (d : Driver) (w : World) :
    (DisableAllChannels d w).2.1.cached_status =
      { d.cached_status with channels_on_mask := 0 } ∧
    (DisableAllChannels d w).2.1.initialized = d.initialized ∧
    (DisableAllChannels d w).2.1.board_config = d.board_config := by
  have key := SetChannelsOn_proj
    { d with cached_status := { d.cached_status with channels_on_mask := 0 } } w 0
  exact ⟨key.1.trans rfl, key.2.1, key.2.2⟩

/-! ## Claim theorems -/

/-- **C6 (counterexample)** — The current-drive encoder does not compute
`round(v / ifs × 127)` on all below-scale inputs: the 32-bit intermediate
`v×127 + ifs/2` wraps at scale 4,000,000,000 mA with setpoint
100,000,000 mA, so the program returns 0 where the rounding formula
gives 3. -/
theorem currentMaToRaw_wrap_cex :
    currentMaToRaw 4000000000 100000000 = 0 ∧
    ⌊(100000000 : ℚ) / 4000000000 * 127 + 1 / 2⌋₊ = 3 ∧
    (0 : Nat) < 4000000000 ∧ (100000000 : Nat) < 4000000000 := by
  refine ⟨by decide, ?_, by decide, by decide⟩
  rw [show (100000000 : ℚ) / 4000000000 * 127 + 1 / 2 =
      ((12700000000 : ℕ) : ℚ) / ((4000000000 : ℕ) : ℚ) + 1 / 2 from by norm_num]
  rw [floor_half_div 12700000000 4000000000 (by norm_num)]

/-- **C6 (amended)** — For every setpoint `v` and scale `ifs_ma`, the
current-drive encoder returns 0 when `ifs_ma == 0`, 127 when
`v >= ifs_ma`, and otherwise computes
`(v×127 + ifs_ma/2) mod 2^32 / ifs_ma` clamped to at most 127 — which
equals `round(v / ifs_ma × 127)`, a value in 0..127, whenever the 32-bit
intermediate `v×127 + ifs_ma/2` does not wrap; with wraparound (possible
only for setpoints above ≈33.8 million mA) the result can differ from the
rounding formula.  Scale 1000 mA with setpoint 500 mA encodes to raw 64. -/
theorem currentMaToRaw_spec :
    (∀ v, currentMaToRaw 0 v = 0) ∧
    (∀ ifs v, 0 < ifs → ifs ≤ v → currentMaToRaw ifs v = 127) ∧
    (∀ ifs v, 0 < ifs → v < ifs → v * 127 + ifs / 2 < 2 ^ 32 →
      currentMaToRaw ifs v = ⌊(v : ℚ) / ifs * 127 + 1 / 2⌋₊ ∧
      currentMaToRaw ifs v ≤ 127) ∧
    (∀ ifs v, currentMaToRaw ifs v ≤ 127) ∧
    currentMaToRaw 1000 500 = 64 := by
  refine ⟨?_, ?_, ?_, currentMaToRaw_le, by decide⟩
  · intro v
    simp [currentMaToRaw]
  · intro ifs v hpos h
    unfold currentMaToRaw
    rw [if_neg (by omega), if_pos h]
  · intro ifs v h1 h2 hnw
    exact ⟨currentMaToRaw_round ifs v h1 h2 hnw, currentMaToRaw_le ifs v⟩

/-- Witness for C6 (amended) at scale 3 mA, setpoint 1 mA. -/
theorem currentMaToRaw_spec_witness :
    currentMaToRaw 3 1 = ⌊(1 : ℚ) / 3 * 127 + 1 / 2⌋₊ ∧ currentMaToRaw 3 1 ≤ 127 :=
  currentMaToRaw_spec.2.2.1 3 1 (by decide) (by decide) (by decide)

/-- **C7** — For every bank address, write flag, and size flag, the
phase-1 command byte equals `(write ? 0x80 : 0x00)` plus the low 4 bank
bits placed at bits 4:1 plus `(8-bit ? 0x01 : 0x00)`; in particular bank
0x01 / write / 32-bit yields 0x82 and bank 0x01 / read / 8-bit yields
0x03. -/
theorem commandByte_spec :
    (∀ bank write mode8, CommandReg.build bank write mode8 =
      (if write then 0x80 else 0x00) + bank % 16 * 2 +
      (if mode8 then 0x01 else 0x00)) ∧
    CommandReg.build 0x01 true false = 0x82 ∧
    CommandReg.build 0x01 false true = 0x03 := by
  refine ⟨?_, by decide, by decide⟩
  intro bank write mode8
  have hmask : bank &&& 0x0F = bank % 16 := by
    simpa using Nat.and_pow_two_sub_one_eq_mod bank 4
  have key : ∀ (m : Fin 16) (w m8 : Bool),
      ((if w then 0x80 else 0x00) ||| ((m : ℕ) <<< 1) |||
        (if m8 then 0x01 else 0x00)) =
      (if w then 0x80 else 0x00) + (m : ℕ) * 2 + (if m8 then 0x01 else 0x00) := by
    decide
  have hm : bank % 16 < 16 := Nat.mod_lt _ (by norm_num)
  unfold CommandReg.build
  rw [hmask]
  exact key ⟨bank % 16, hm⟩ write mode8

/-- **C1 (counterexample)** — 1000 ms is a nonzero, finite HIT time below
the 1,000,000 ms cutoff, yet at 25 kHz chopping (100 kHz base, divider 4)
the encoder returns raw 255, contradicting "a nonzero finite input never
yields raw 255 (maximum result 254)": the computed value 625 saturates to
the continuous code 255, not to 254. -/
theorem hitTime_nonzero_finite_yields_255 :
    hitTimeMsToRaw 1000 false .FMAIN_DIV4 = 255 ∧
    ¬ ((1000 : ℚ) < 0 ∨ 1000000 ≤ (1000 : ℚ)) ∧ (1000 : ℚ) ≠ 0 := by
  refine ⟨?_, by norm_num, by norm_num⟩
  unfold hitTimeMsToRaw getChopFreqKhz
  rw [if_neg (by norm_num), if_neg (by norm_num)]
  have h : ((1000 : ℚ) / 1000 * (((if false then 20 else 25 : ℕ) : ℚ) * 1000) / 40
      + 1 / 2) = (1251 : ℚ) / 2 := by norm_num
  rw [h, show ((1251 : ℚ) / 2) = ((1251 : ℕ) : ℚ) / ((2 : ℕ) : ℚ) from by norm_num,
    Nat.floor_div_eq_div]
  norm_num

/-- **C1 (amended)** — For every HIT-time input `ms` and chopping context:
`ms == 0` gives raw 0; `ms < 0` or `ms ≥ 1,000,000` gives raw 255;
otherwise raw is `round((ms/1000) × (f_khz×1000) / 40)` where a computed
value of 0 is clamped up to 1 (a nonzero finite input never yields raw 0)
and a computed value above 254 saturates to the continuous code 255
(rather than clamping to 254); 100 ms at 25 kHz chopping yields raw 63. -/
theorem hitTimeMsToRaw_spec :
    (∀ clk cf, hitTimeMsToRaw 0 clk cf = 0) ∧
    (∀ (ms : ℚ) clk cf, ms < 0 ∨ 1000000 ≤ ms → hitTimeMsToRaw ms clk cf = 255) ∧
    (∀ (ms : ℚ) clk cf, 0 < ms → ms < 1000000 →
      (hitTimeMsToRaw ms clk cf =
        (fun q => if 254 < q then 255 else if q = 0 then 1 else q)
          ⌊ms / 1000 * ((getChopFreqKhz clk cf : ℚ) * 1000) / 40 + 1 / 2⌋₊) ∧
      hitTimeMsToRaw ms clk cf ≠ 0) ∧
    hitTimeMsToRaw 100 false .FMAIN_DIV4 = 63 := by
  refine ⟨?_, ?_, ?_, ?_⟩
  · intro clk cf
    unfold hitTimeMsToRaw
    rw [if_neg (by norm_num), if_pos rfl]
  · intro ms clk cf h
    unfold hitTimeMsToRaw
    rw [if_pos h]
  · intro ms clk cf h1 h2
    unfold hitTimeMsToRaw
    rw [if_neg (by push_neg; exact ⟨le_of_lt h1, h2⟩), if_neg (ne_of_gt h1)]
    refine ⟨rfl, ?_⟩
    have hq : ∀ q : ℕ, (if 254 < q then 255 else if q = 0 then 1 else q) ≠ 0 := by
      intro q
      split
      · omega
      · split
        · omega
        · omega
    exact hq _
  · unfold hitTimeMsToRaw getChopFreqKhz
    rw [if_neg (by norm_num), if_neg (by norm_num)]
    have h : ((100 : ℚ) / 1000 * (((if false then 20 else 25 : ℕ) : ℚ) * 1000) / 40
        + 1 / 2) = ((63 : ℕ) : ℚ) := by norm_num
    rw [h, Nat.floor_natCast]
    decide

/-- Witness for C1 (amended): a negative input encodes to the continuous
code 255. -/
theorem hitTimeMsToRaw_spec_witness :
    hitTimeMsToRaw (-5) false .FMAIN_DIV4 = 255 :=
  hitTimeMsToRaw_spec.2.1 (-5) false .FMAIN_DIV4 (Or.inl (by norm_num))

/-- **C3** — The phase-2 write clocks out exactly the 4 bytes of the value
in ascending significance order (bits 7:0 first); the phase-2 read
assembles the 4 received bytes in descending significance order (first
byte becomes bits 31:24); feeding a written byte stream back through the
read codec is not the identity (the device-mandated asymmetry is
reproduced). -/
theorem byteOrder_spec :
    (∀ (w : World) (v : Nat),
      (writeData32 w v).2.log =
        w.log ++ [[v % 256, v / 2 ^ 8 % 256, v / 2 ^ 16 % 256, v / 2 ^ 24 % 256]]) ∧
    (∀ (w : World) (b0 b1 b2 b3 : Nat) (rest : List XferRes),
      w.events = .ok [b0, b1, b2, b3] :: rest →
      (readData32 w).2.1 = b0 * 2 ^ 24 + b1 * 2 ^ 16 + b2 * 2 ^ 8 + b3) ∧
    (∃ v, v < 2 ^ 32 ∧ assemble32 (writeData32Tx v) ≠ v) := by
  refine ⟨?_, ?_, ⟨1, by norm_num, by decide⟩⟩
  · intro w v
    unfold writeData32 writeData32Tx transfer
    rcases hw : w.events with _ | ⟨e, rest⟩
    · simp [hw]
    · cases e <;> simp [hw]
  · intro w b0 b1 b2 b3 rest h
    unfold readData32 transfer assemble32
    simp [h]

/-- Witness for C3: reading bytes 1,2,3,4 assembles them MSB-first. -/
theorem byteOrder_spec_witness :
    (readData32 (mkWorld [.ok [1, 2, 3, 4]])).2.1 =
      1 * 2 ^ 24 + 2 * 2 ^ 16 + 3 * 2 ^ 8 + 4 :=
  byteOrder_spec.2.1 (mkWorld [.ok [1, 2, 3, 4]]) 1 2 3 4 [] rfl

/-- **C5 (counterexample)** — After a failed bus write the cached
channel-on mask in `SetChannelsOn` *does* differ from its value before
the call: on a fresh driver (cached mask 0) with a failing transport,
`SetChannelsOn 5` returns COMMUNICATION_ERROR but leaves the cached mask
at 5, because the cache is committed before the transfer. -/
theorem setChannelsOn_commits_cache_cex :
    (SetChannelsOn sampleDriver (mkWorld [.fail]) 5).1 = .COMMUNICATION_ERROR ∧
    (SetChannelsOn sampleDriver (mkWorld [.fail]) 5).2.1.cached_status.channels_on_mask = 5 ∧
    sampleDriver.cached_status.channels_on_mask = 0 := by
  decide

/-- **C5 (amended)** — A transport failure makes the operation return
COMMUNICATION_ERROR immediately: the failing command phase is the only
transfer attempted, and the protocol layer commits no state (the
last-fault byte and, for `writeReg32`, the whole driver are unchanged);
however the cached channel-on mask in `SetChannelsOn` is updated before
the transfer and keeps the new value after the failure. -/
theorem transport_failure_spec :
    (∀ (d : Driver) (w : World) (mask : Nat) (rest : List XferRes),
      w.events = .fail :: rest →
      (SetChannelsOn d w mask).1 = .COMMUNICATION_ERROR ∧
      (SetChannelsOn d w mask).2.2.log = w.log ++ [[CommandReg.build 0 true true]] ∧
      (SetChannelsOn d w mask).2.1.last_fault_byte = d.last_fault_byte ∧
      (SetChannelsOn d w mask).2.1.cached_status.channels_on_mask = mask) ∧
    (∀ (d : Driver) (w : World) (bank v : Nat) (rest : List XferRes),
      w.events = .fail :: rest →
      (writeReg32 d w bank v).1 = .COMMUNICATION_ERROR ∧
      (writeReg32 d w bank v).2.1 = d ∧
      (writeReg32 d w bank v).2.2.log = w.log ++ [[CommandReg.build bank true false]]) := by
  constructor
  · intro d w mask rest hev
    unfold SetChannelsOn writeReg8 writeCommandRegister writeData8 transfer updateStats
    simp [hev]
  · intro d w bank v rest hev
    unfold writeReg32 writeCommandRegister writeData32 transfer
    simp [hev]

/-- Witness for C5 (amended): one failing transfer on a fresh driver. -/
theorem transport_failure_spec_witness :
    (SetChannelsOn sampleDriver (mkWorld [.fail]) 3).1 = .COMMUNICATION_ERROR ∧
    (SetChannelsOn sampleDriver (mkWorld [.fail]) 3).2.2.log =
      (mkWorld [.fail]).log ++ [[CommandReg.build 0 true true]] ∧
    (SetChannelsOn sampleDriver (mkWorld [.fail]) 3).2.1.last_fault_byte =
      sampleDriver.last_fault_byte ∧
    (SetChannelsOn sampleDriver (mkWorld [.fail]) 3).2.1.cached_status.channels_on_mask = 3 :=
  transport_failure_spec.1 sampleDriver (mkWorld [.fail]) 3 [] rfl

/-- **C9** — `Deinitialize` is total and idempotent over driver states:
when not initialized it is a no-op returning OK (no bus access, nothing
changes); when initialized it returns OK, leaves the Uninitialized state
with ACTIVE cleared and mask 0 in the cache and ENABLE deasserted (so a
second call is a no-op returning OK), and — with a responsive transport —
the bus sees exactly the fast 8-bit write of mask 0 followed by the
32-bit status write of the cleared cached status. -/
theorem deinitialize_spec :
    (∀ (d : Driver) (w : World), d.initialized = false →
      Deinitialize d w = (.OK, d, w)) ∧
    (∀ (d : Driver) (w : World), d.initialized = true →
      ( Deinitialize d w).1 = .OK ∧
      ( Deinitialize d w).2.1.initialized = false ∧
      ( Deinitialize d w).2.1.cached_status.active = false ∧
      ( Deinitialize d w).2.1.cached_status.channels_on_mask = 0 ∧
      ( Deinitialize d w).2.2.enable = false ∧
      Deinitialize ( Deinitialize d w).2.1 ( Deinitialize d w).2.2 =
        (.OK, ( Deinitialize d w).2.1, ( Deinitialize d w).2.2)) ∧
    (∀ (d : Driver) (w : World) (r1 r2 r3 r4 : List Nat) (rest : List XferRes),
      d.initialized = true →
      w.events = .ok r1 :: .ok r2 :: .ok r3 :: .ok r4 :: rest →
      ( Deinitialize d w).2.2.log = w.log ++
        [[CommandReg.build 0 true true], [0],
         [CommandReg.build 0 true false],
         writeData32Tx (StatusConfig.toRegister
           { d.cached_status with active := false, channels_on_mask := 0 })]) := by
  have hnoop : ∀ (d : Driver) (w : World), d.initialized = false →
      Deinitialize d w = (.OK, d, w) := by
    intro d w h
    unfold Deinitialize
    rw [if_pos h]
  refine ⟨hnoop, ?_, ?_⟩
  · intro d w h
    have hmain : ( Deinitialize d w).1 = .OK ∧
        ( Deinitialize d w).2.1.initialized = false ∧
        ( Deinitialize d w).2.1.cached_status.active = false ∧
        ( Deinitialize d w).2.1.cached_status.channels_on_mask = 0 ∧
        ( Deinitialize d w).2.2.enable = false := by
      unfold Deinitialize
      rw [if_neg (by simp [h])]
      rcases h1 : DisableAllChannels d w with ⟨r1, d1, w1⟩
      have hp1 := DisableAllChannels_proj d w
      rw [h1] at hp1
      rcases h2 : WriteStatus
          { d1 with cached_status :=
            { d1.cached_status with active := false, channels_on_mask := 0 } }
          w1 { d1.cached_status with active := false, channels_on_mask := 0 }
        with ⟨r2, d3, w2⟩
      have hp2 := WriteStatus_proj
        { d1 with cached_status :=
          { d1.cached_status with active := false, channels_on_mask := 0 } }
        w1 { d1.cached_status with active := false, channels_on_mask := 0 } rfl
      rw [h2] at hp2
      simp only [h1, h2, updateStats]
      refine ⟨trivial, trivial, ?_, ?_, trivial⟩
      · rw [hp2.1]
      · rw [hp2.1]
    exact ⟨hmain.1, hmain.2.1, hmain.2.2.1, hmain.2.2.2.1, hmain.2.2.2.2,
      hnoop _ _ hmain.2.1⟩
  · intro d w r1 r2 r3 r4 rest h hev
    unfold Deinitialize DisableAllChannels SetAllChannelsEnabled SetChannelsOn
      WriteStatus writeReg8 writeReg32 writeCommandRegister writeData8
      writeData32 transfer updateStats
    simp [h, hev]

/-- Witness for C9: tearing down an initialized driver over a responsive
transport issues the 8-bit mask-0 write and the 32-bit status write. -/
theorem deinitialize_spec_witness :
    ( Deinitialize { sampleDriver with initialized := true }
        (mkWorld [.ok [0], .ok [0], .ok [0], .ok [0, 0, 0, 0]])).2.2.log =
      (mkWorld [.ok [0], .ok [0], .ok [0], .ok [0, 0, 0, 0]]).log ++
        [[CommandReg.build 0 true true], [0],
         [CommandReg.build 0 true false],
         writeData32Tx (StatusConfig.toRegister
           { ({ sampleDriver with initialized := true } : Driver).cached_status with
             active := false, channels_on_mask := 0 })] :=
  deinitialize_spec.2.2 { sampleDriver with initialized := true }
    (mkWorld [.ok [0], .ok [0], .ok [0], .ok [0, 0, 0, 0]])
    [0] [0] [0] [0, 0, 0, 0] [] rfl rfl

/-- **C2** — During `Initialize`, a command-phase fault byte of 0x04
(COMER) abandons the attempt and retries; when a 0x04 fault byte is
observed on each of the 3 attempts, `Initialize` returns
COMMUNICATION_ERROR with the ENABLE control signal deasserted (and the
driver still uninitialized); a transport-level transfer failure instead
aborts immediately — the failing command-phase transfer is the only bus
access — with the same COMMUNICATION_ERROR and ENABLE deassertion. -/
theorem initialize_comer_retry_spec :
    (∀ (d : Driver) (w : World) (t1 t2 t3 r1 r2 r3 : List Nat)
        (rest : List XferRes),
      d.initialized = false → w.initOk = true → w.configOk = true →
      w.events = .ok (4 :: t1) :: .ok r1 :: .ok (4 :: t2) :: .ok r2 ::
        .ok (4 :: t3) :: .ok r3 :: rest →
      (Initialize d w).1 = .COMMUNICATION_ERROR ∧
      (Initialize d w).2.2.enable = false ∧
      (Initialize d w).2.1.initialized = false) ∧
    (∀ (d : Driver) (w : World) (rest : List XferRes),
      d.initialized = false → w.initOk = true → w.configOk = true →
      w.events = .fail :: rest →
      (Initialize d w).1 = .COMMUNICATION_ERROR ∧
      (Initialize d w).2.2.enable = false ∧
      (Initialize d w).2.2.log = w.log ++ [[CommandReg.build 0 false false]]) := by
  constructor
  · intro d w t1 t2 t3 r1 r2 r3 rest hd hi hc hev
    unfold Initialize initAttempt ReadStatus WriteStatus readReg32 writeReg32
      writeCommandRegister readData32 writeData32 transfer updateStats
    simp [hd, hi, hc, hev]
  · intro d w rest hd hi hc hev
    unfold Initialize initAttempt ReadStatus readReg32
      writeCommandRegister readData32 transfer updateStats
    simp [hd, hi, hc, hev]

/-- Witness for C2: three straight COMER fault bytes exhaust the retries. -/
theorem initialize_comer_retry_spec_witness :
    (Initialize sampleDriver (mkWorld [.ok [4], .ok [0, 0, 0, 0], .ok [4],
        .ok [0, 0, 0, 0], .ok [4], .ok [0, 0, 0, 0]])).1 = .COMMUNICATION_ERROR ∧
    (Initialize sampleDriver (mkWorld [.ok [4], .ok [0, 0, 0, 0], .ok [4],
        .ok [0, 0, 0, 0], .ok [4], .ok [0, 0, 0, 0]])).2.2.enable = false ∧
    (Initialize sampleDriver (mkWorld [.ok [4], .ok [0, 0, 0, 0], .ok [4],
        .ok [0, 0, 0, 0], .ok [4], .ok [0, 0, 0, 0]])).2.1.initialized = false :=
  initialize_comer_retry_spec.1 sampleDriver
    (mkWorld [.ok [4], .ok [0, 0, 0, 0], .ok [4], .ok [0, 0, 0, 0], .ok [4],
      .ok [0, 0, 0, 0]])
    [] [] [] [0, 0, 0, 0] [0, 0, 0, 0] [0, 0, 0, 0] [] rfl rfl rfl rfl

/-- **C8 (amended)** — For every 32-bit channel-configuration register
value that itself was produced by `toRegister` under some conversion
context whose full-scale current cannot overflow the encoder's 32-bit
intermediate in CDR mode (`127×IFS + IFS/2 < 2^32`, true of every
physically meaningful scale, and vacuous in VDR mode), decoding it with
`fromRegister` under the same context and re-encoding with `toRegister`
yields the same register value; for larger CDR scales the `uint32_t`
wrap can break the round trip. -/
theorem register_roundtrip_spec :
    ∀ c : ChannelConfig,
      (c.drive_mode = .CDR →
        127 * c.full_scale_current_ma + c.full_scale_current_ma / 2 < 2 ^ 32) →
      (ChannelConfig.fromRegister c.toRegister c.full_scale_current_ma
          c.master_clock_80khz).toRegister = c.toRegister := by
  intro c hb
  obtain ⟨e31, ehold, e23, ehit, ehitt, e7, e6, efr, e3, e2, e1, e0⟩ :=
    pack_extract c.toRegister
      (if c.half_full_scale then 1 else 0)
      (if c.trigger_from_pin then 1 else 0)
      (if c.drive_mode = .VDR then 1 else 0)
      (if c.side_mode = .HIGH_SIDE then 1 else 0)
      (if c.slew_rate_control_enabled then 1 else 0)
      (if c.open_load_detection_enabled then 1 else 0)
      (if c.plunger_movement_detection_enabled then 1 else 0)
      (if c.hit_current_check_enabled then 1 else 0)
      (encodeSetpoint c.drive_mode c.full_scale_current_ma c.hold_current_value)
      (encodeSetpoint c.drive_mode c.full_scale_current_ma c.hit_current_value)
      (hitTimeMsToRaw c.hit_time_ms c.master_clock_80khz c.chop_freq)
      (chopFreqBits c.chop_freq)
      (toRegister_eq c)
      (by split <;> norm_num) (by split <;> norm_num) (by split <;> norm_num)
      (by split <;> norm_num) (by split <;> norm_num) (by split <;> norm_num)
      (by split <;> norm_num) (by split <;> norm_num)
      (encodeSetpoint_le _ _ _) (encodeSetpoint_le _ _ _)
      (hitTimeMsToRaw_le _ _ _) (chopFreqBits_inv c.chop_freq).1
  generalize hxg : c.toRegister = x at e31 ehold e23 ehit ehitt e7 e6 efr e3 e2 e1 e0 ⊢
  have hdm : (if x / 2 ^ 7 % 2 = 1 then DriveMode.VDR else .CDR) =
      c.drive_mode := by
    rw [e7]
    cases c.drive_mode <;> simp
  have hsm : (if x / 2 ^ 6 % 2 = 1 then SideMode.HIGH_SIDE else .LOW_SIDE) =
      c.side_mode := by
    rw [e6]
    cases c.side_mode <;> simp
  have hcf : chopFreqOfBits (x / 2 ^ 4 % 4) = c.chop_freq := by
    rw [efr]
    exact (chopFreqBits_inv c.chop_freq).2
  have hb31 : decide (x / 2 ^ 31 % 2 = 1) = c.half_full_scale := by
    rw [e31]
    cases c.half_full_scale <;> simp
  have hb23 : decide (x / 2 ^ 23 % 2 = 1) = c.trigger_from_pin := by
    rw [e23]
    cases c.trigger_from_pin <;> simp
  have hb3 : decide (x / 2 ^ 3 % 2 = 1) = c.slew_rate_control_enabled := by
    rw [e3]
    cases c.slew_rate_control_enabled <;> simp
  have hb2 : decide (x / 2 ^ 2 % 2 = 1) = c.open_load_detection_enabled := by
    rw [e2]
    cases c.open_load_detection_enabled <;> simp
  have hb1 : decide (x / 2 ^ 1 % 2 = 1) =
      c.plunger_movement_detection_enabled := by
    rw [e1]
    cases c.plunger_movement_detection_enabled <;> simp
  have hb0 : decide (x % 2 = 1) = c.hit_current_check_enabled := by
    rw [e0]
    cases c.hit_current_check_enabled <;> simp
  have hrt1 := setpoint_roundtrip c.drive_mode c.full_scale_current_ma
    c.hold_current_value hb
  have hrt2 := setpoint_roundtrip c.drive_mode c.full_scale_current_ma
    c.hit_current_value hb
  simp only [ChannelConfig.fromRegister, ChannelConfig.toRegister]
  simp only [hdm, hsm, hcf, hb31, hb23, hb3, hb2, hb1, hb0, ehold, ehit, ehitt]
  simp only [hrt1, hrt2, hitTime_roundtrip]
  rw [← hxg]
  simp only [ChannelConfig.toRegister]

/-- **C8 (counterexample)** — encode ∘ decode is *not* the identity on
every encode-originated register value: under the context
IFS = 4,000,000,000 mA the configuration `wrapConfig` (16,000,000 mA HIT
setpoint) encodes to raw HIT field 1 without wrapping, but decoding that
register and re-encoding it overflows the 32-bit intermediate
(31,496,063 × 127 + 2,000,000,000 wraps mod 2^32) and yields raw 0, so
the round trip changes the register value. -/
theorem register_roundtrip_wrap_cex :
    (ChannelConfig.fromRegister wrapConfig.toRegister
        wrapConfig.full_scale_current_ma wrapConfig.master_clock_80khz).toRegister ≠
      wrapConfig.toRegister := by
  have hht0 : hitTimeMsToRaw 0 false .FMAIN_DIV4 = 0 := by
    unfold hitTimeMsToRaw
    rw [if_neg (by norm_num), if_pos rfl]
  have hhit : encodeSetpoint .CDR 4000000000 (16000000 : ℚ) = 1 := by
    simp only [encodeSetpoint]
    rw [if_neg (by norm_num), if_neg (by norm_num)]
    rw [show (16000000 : ℚ) + 1 / 2 = ((16000000 : ℕ) : ℚ) + 1 / 2 from by norm_num,
      floor_add_half]
    decide
  have hzero : encodeSetpoint .CDR 4000000000 (0 : ℚ) = 0 := by
    simp only [encodeSetpoint]
    rw [if_neg (by norm_num), if_neg (by norm_num)]
    rw [show (0 : ℚ) + 1 / 2 = ((0 : ℕ) : ℚ) + 1 / 2 from by norm_num,
      floor_add_half]
    decide
  have henc : wrapConfig.toRegister = 65536 := by
    simp only [ChannelConfig.toRegister, wrapConfig]
    rw [hhit, hzero, hht0]
    decide
  have hre : encodeSetpoint .CDR 4000000000 ((1 : ℚ) / 127 * 4000000000) = 0 := by
    simp only [encodeSetpoint]
    rw [if_neg (by norm_num), if_neg (by push_neg; norm_num)]
    rw [show (1 : ℚ) / 127 * 4000000000 + 1 / 2 =
        ((4000000000 : ℕ) : ℚ) / ((127 : ℕ) : ℚ) + 1 / 2 from by norm_num,
      floor_half_div 4000000000 127 (by norm_num)]
    decide
  have hdec : (ChannelConfig.fromRegister 65536 4000000000 false).toRegister = 0 := by
    have hd1 : decodeSetpoint .CDR 4000000000 1 = (1 : ℚ) / 127 * 4000000000 := by
      simp only [decodeSetpoint]
      rw [if_pos (by norm_num)]
      norm_num
    have hd0 : decodeSetpoint .CDR 4000000000 0 = 0 := by
      simp [decodeSetpoint]
    have hdh : decodeHitTime 0 false .FMAIN_DIV4 = 0 := by
      unfold decodeHitTime
      rw [if_pos rfl]
    simp only [ChannelConfig.fromRegister, ChannelConfig.toRegister]
    simp only [show (65536 : ℕ) / 2 ^ 7 % 2 = 0 from by decide,
      show (65536 : ℕ) / 2 ^ 6 % 2 = 0 from by decide,
      show (65536 : ℕ) / 2 ^ 4 % 4 = 0 from by decide,
      show chopFreqOfBits 0 = ChopFreq.FMAIN_DIV4 from rfl,
      show (65536 : ℕ) / 2 ^ 16 % 128 = 1 from by decide,
      show (65536 : ℕ) / 2 ^ 24 % 128 = 0 from by decide,
      show (65536 : ℕ) / 2 ^ 8 % 256 = 0 from by decide]
    norm_num
    rw [hd1, hd0, hdh, hre, hzero, hht0]
    decide
  rw [henc, show wrapConfig.full_scale_current_ma = 4000000000 from rfl,
    show wrapConfig.master_clock_80khz = false from rfl, hdec]
  norm_num

/-- Witness for C8 (amended): the default configuration (IFS 1000 mA)
round-trips exactly. -/
theorem register_roundtrip_spec_witness :
    (ChannelConfig.fromRegister ChannelConfig.default.toRegister
        ChannelConfig.default.full_scale_current_ma
        ChannelConfig.default.master_clock_80khz).toRegister =
      ChannelConfig.default.toRegister :=
  register_roundtrip_spec ChannelConfig.default (fun _ => by decide)

/-- **C10 (counterexample)** — `updateStatistics` does not preserve
`failed_transfers ≤ total_transfers` across the 2^32 wraparound: from a
state satisfying the invariant (total = 2^32−1, failed = 1), recording a
success wraps the total to 0 while the failure count stays 1. -/
theorem statistics_wraparound_cex :
    wrapStats.failed_transfers ≤ wrapStats.total_transfers ∧
    ¬ ((wrapStats.update true).failed_transfers ≤
        (wrapStats.update true).total_transfers) := by
  constructor
  · norm_num [wrapStats]
  · simp only [wrapStats, DriverStatistics.update, if_pos]
    norm_num

/-- **C10 (amended)** — `updateStatistics` increments `total_transfers` on
every recorded outcome and `failed_transfers` only together with it, so
the invariant `failed_transfers ≤ total_transfers` is preserved whenever
the total counter does not wrap (total + 1 < 2^32); under the invariant
(with total < 2^32) `getSuccessRate()` lies in [0, 100]; at wraparound of
the total counter the invariant can break.  Parameter-validation failures
rejected before any bus transfer are nevertheless counted as failed
transfers (`ConfigureChannel` with an out-of-range channel bumps both
counters and performs no transfer). -/
theorem statistics_invariant_spec :
    (∀ (s : DriverStatistics) (b : Bool),
      s.failed_transfers ≤ s.total_transfers →
      s.total_transfers + 1 < 2 ^ 32 →
      (s.update b).failed_transfers ≤ (s.update b).total_transfers) ∧
    (∀ s : DriverStatistics,
      s.failed_transfers ≤ s.total_transfers → s.total_transfers < 2 ^ 32 →
      0 ≤ s.getSuccessRate ∧ s.getSuccessRate ≤ 100) ∧
    (∀ (d : Driver) (w : World) (ch : Nat) (cfg : ChannelConfig), 8 ≤ ch →
      (ConfigureChannel d w ch cfg).2.1.statistics = d.statistics.update false ∧
      (ConfigureChannel d w ch cfg).2.2.log = w.log) := by
  refine ⟨?_, ?_, ?_⟩
  · intro s b h1 h2
    cases b <;> simp only [DriverStatistics.update] <;> simp <;> omega
  · intro s h1 h2
    unfold DriverStatistics.getSuccessRate
    rcases Nat.eq_zero_or_pos s.total_transfers with h0 | h0
    · rw [if_pos h0]
      norm_num
    · rw [if_neg h0.ne']
      have hnum : (s.total_transfers % 2 ^ 32 + 2 ^ 32 - s.failed_transfers % 2 ^ 32)
          % 2 ^ 32 = s.total_transfers - s.failed_transfers := by omega
      rw [hnum]
      have ht : (0 : ℚ) < (s.total_transfers : ℚ) := by positivity
      constructor
      · positivity
      · rw [div_mul_eq_mul_div, div_le_iff₀ ht]
        have hc : ((s.total_transfers - s.failed_transfers : ℕ) : ℚ) ≤
            (s.total_transfers : ℚ) := Nat.cast_le.mpr (Nat.sub_le _ _)
        nlinarith
  · intro d w ch cfg h
    unfold ConfigureChannel updateStats
    rw [if_pos (by omega)]
    exact ⟨rfl, rfl⟩

/-- **C4** — `ConfigureChannel` returns INVALID_PARAMETER with no bus
transfer (the transport world is untouched) and an unchanged cached
status whenever the channel index is ≥ 8, or CDR drive is requested while
the board's full-scale current is 0, or slew-rate control is requested
with a chopping frequency at or above 50 kHz in the cached clock-base
context; for all other inputs it encodes the configuration (with the
board IFS and cached clock base as context) and writes the channel's CFG
bank. -/
theorem configureChannel_spec :
    (∀ (d : Driver) (w : World) (ch : Nat) (cfg : ChannelConfig),
      (¬ ch < 8) ∨
      (cfg.drive_mode = .CDR ∧ d.board_config.full_scale_current_ma = 0) ∨
      (cfg.slew_rate_control_enabled ∧
        50 ≤ getChopFreqKhz d.cached_status.master_clock_80khz cfg.chop_freq) →
      (ConfigureChannel d w ch cfg).1 = .INVALID_PARAMETER ∧
      (ConfigureChannel d w ch cfg).2.2 = w ∧
      (ConfigureChannel d w ch cfg).2.1.cached_status = d.cached_status) ∧
    (∀ (d : Driver) (w : World) (ch : Nat) (cfg : ChannelConfig),
      ch < 8 →
      ¬ (cfg.drive_mode = .CDR ∧ d.board_config.full_scale_current_ma = 0) →
      ¬ (cfg.slew_rate_control_enabled ∧
        50 ≤ getChopFreqKhz d.cached_status.master_clock_80khz cfg.chop_freq) →
      ∀ (r1 r2 : List Nat) (rest : List XferRes),
        w.events = .ok r1 :: .ok r2 :: rest →
        (ConfigureChannel d w ch cfg).1 = .OK ∧
        (ConfigureChannel d w ch cfg).2.2.log = w.log ++
          [[CommandReg.build (getChannelCfgBank ch) true false],
           writeData32Tx (ChannelConfig.toRegister { cfg with
             full_scale_current_ma := d.board_config.full_scale_current_ma,
             master_clock_80khz := d.cached_status.master_clock_80khz })]) := by
  constructor
  · intro d w ch cfg h
    unfold ConfigureChannel
    rcases h with h | h | h
    · rw [if_pos h]
      exact ⟨rfl, rfl, rfl⟩
    · by_cases h1 : ¬ ch < 8
      · rw [if_pos h1]
        exact ⟨rfl, rfl, rfl⟩
      · rw [if_neg h1, if_pos h]
        exact ⟨rfl, rfl, rfl⟩
    · by_cases h1 : ¬ ch < 8
      · rw [if_pos h1]
        exact ⟨rfl, rfl, rfl⟩
      · by_cases h2 : cfg.drive_mode = .CDR ∧ d.board_config.full_scale_current_ma = 0
        · rw [if_neg h1, if_pos h2]
          exact ⟨rfl, rfl, rfl⟩
        · rw [if_neg h1, if_neg h2, if_pos h]
          exact ⟨rfl, rfl, rfl⟩
  · intro d w ch cfg h1 h2 h3 r1 r2 rest hev
    unfold ConfigureChannel
    rw [if_neg (not_not_intro h1), if_neg h2, if_neg h3]
    unfold writeReg32 writeCommandRegister writeData32 transfer updateStats
    simp [hev]

/-- Witness for C4: configuring channel 9 on a fresh driver is rejected
without touching the bus. -/
theorem configureChannel_spec_witness :
    (ConfigureChannel sampleDriver (mkWorld []) 9 ChannelConfig.default).1 =
      .INVALID_PARAMETER ∧
    (ConfigureChannel sampleDriver (mkWorld []) 9 ChannelConfig.default).2.2 =
      mkWorld [] ∧
    (ConfigureChannel sampleDriver (mkWorld []) 9 ChannelConfig.default).2.1.cached_status =
      sampleDriver.cached_status :=
  configureChannel_spec.1 sampleDriver (mkWorld []) 9 ChannelConfig.default
    (Or.inl (by decide))

/-- Witness for C10 (amended): the first recorded success keeps the
invariant, and a fresh statistics object reports a 100% success rate. -/
theorem statistics_invariant_spec_witness :
    (DriverStatistics.init.update true).failed_transfers ≤
      (DriverStatistics.init.update true).total_transfers ∧
    0 ≤ DriverStatistics.init.getSuccessRate ∧
    DriverStatistics.init.getSuccessRate ≤ 100 :=
  ⟨statistics_invariant_spec.1 DriverStatistics.init true (by decide) (by norm_num [DriverStatistics.init]),
   statistics_invariant_spec.2.1 DriverStatistics.init (by decide) (by norm_num [DriverStatistics.init])⟩

end Max22200
